import Mathlib

/-!
Verification of the UI smoke-verification harness under
`jules-scratch/verification/`.  The four Python scripts
(`verify_main_page_v2.py`, `verify_main_page.py`,
`verify_dynamic_withdrawal.py`, `verify_fixes.py`) are shallowly embedded
as programs in a tiny imperative language whose interpreter models the
Python control flow (sequencing, `try`/`except`/`finally`, early `return`)
and the Playwright driver as an oracle deciding which fallible steps
succeed.  Every run yields a trace of observable events (session
open/close, driver calls with their success bit, printed lines) together
with a control result (normal return, early return, or an uncaught
exception).
-/

namespace Verif

/-- Locators, as produced by `page.get_by_role(role, name=...)` and
`page.get_by_text(text)` in the scripts. -/
inductive Locator where
  | byRole (role nm : String)
  | byText (txt : String)
deriving DecidableEq

/-- Screenshot targets: the whole page (`page.screenshot`) or the parent
element of a located element (`locator("..").screenshot`). -/
inductive ShotTarget where
  | fullPage
  | parentOf (loc : Locator)
deriving DecidableEq

/-- One driver call made by a script.  Each carries the arguments visible
at the call site; `timeout` is `none` when the script passes no explicit
timeout (the driver default applies). -/
inductive Step where
  | navigate (url : String) (timeout : Option Nat)
  | waitVisible (loc : Locator) (timeout : Option Nat)
  | waitEnabled (loc : Locator) (timeout : Option Nat)
  | click (loc : Locator)
  | settle (ms : Nat)
  | screenshot (target : ShotTarget) (path : String)
deriving DecidableEq

/-- Observable events of one run. -/
inductive Event where
  | openSession
  | closeSession
  | doStep (s : Step) (ok : Bool)
  | printed (msg : String)
deriving DecidableEq

/-- Control result of running a program fragment: fell through normally,
raised an uncaught exception (identified by the failing step), or executed
an early `return`. -/
inductive Ctl where
  | normal
  | raised (s : Step)
  | returned
deriving DecidableEq

/-- The driver oracle: which fallible steps succeed in this run. -/
def Env : Type := Step → Bool

/-- Effective success of a step: `page.wait_for_timeout` (the settling
delay) always completes; every other step is decided by the oracle. -/
def effOk (env : Env) : Step → Bool
  | .settle _ => true
  | s => env s

/-- Abstract syntax of the scripts.  `tryc body handlerMsg fin` models
Python `try: body except Exception as e: print(handlerMsg e) finally: fin`
(in each script the handler is exactly one print). -/
inductive Prog where
  | skip
  | step (s : Step)
  | message (msg : String)
  | launch
  | closeB
  | ret
  | seq (p q : Prog)
  | tryc (body : Prog) (handlerMsg : Step → String) (fin : Prog)

/-- Interpreter: runs a program under an oracle, returning the event trace
and the control result.  A failing step raises; `seq` stops on a raise or
a return; `tryc` runs the handler print on a raise and always runs the
`finally` part, after which a caught exception leaves control normal. -/
def interp (env : Env) : Prog → List Event × Ctl
  | .skip => ([], .normal)
  | .step s =>
      if effOk env s = true then ([.doStep s true], .normal)
      else ([.doStep s false], .raised s)
  | .message m => ([.printed m], .normal)
  | .launch => ([.openSession], .normal)
  | .closeB => ([.closeSession], .normal)
  | .ret => ([], .returned)
  | .seq p q =>
      match interp env p with
      | (tr, .normal) =>
          match interp env q with
          | (tr2, c2) => (tr ++ tr2, c2)
      | (tr, c) => (tr, c)
  | .tryc b h f =>
      match interp env b with
      | (trb, .raised s) =>
          match interp env f with
          | (trf, cf) =>
              (trb ++ [.printed (h s)] ++ trf,
               if cf = .normal then .normal else cf)
      | (trb, cb) =>
          match interp env f with
          | (trf, cf) => (trb ++ trf, if cf = .normal then cb else cf)

/-- Sequence a list of statements. -/
def seqAll (ps : List Prog) : Prog := ps.foldr .seq .skip

/-! Observations on traces. -/

/-- URLs of all navigation calls in a trace (one per session-runner
invocation, successful or not). -/
def attemptsOf (tr : List Event) : List String :=
  tr.filterMap fun e =>
    match e with
    | .doStep (.navigate u _) _ => some u
    | _ => none

/-- Lines printed during a trace. -/
def printsOf (tr : List Event) : List String :=
  tr.filterMap fun e =>
    match e with
    | .printed m => some m
    | _ => none

/-- Paths of screenshot files actually written (screenshot steps that
succeeded). -/
def filesWritten (tr : List Event) : List String :=
  tr.filterMap fun e =>
    match e with
    | .doStep (.screenshot _ p) true => some p
    | _ => none

/-- Number of browser launches in a trace. -/
def openCount (tr : List Event) : Nat :=
  tr.countP fun e =>
    match e with
    | .openSession => true
    | _ => false

/-- Number of browser close calls in a trace. -/
def closeCount (tr : List Event) : Nat :=
  tr.countP fun e =>
    match e with
    | .closeSession => true
    | _ => false

/-- All driver steps syntactically present in a program. -/
def stepsOf : Prog → List Step
  | .skip => []
  | .step s => [s]
  | .message _ => []
  | .launch => []
  | .closeB => []
  | .ret => []
  | .seq p q => stepsOf p ++ stepsOf q
  | .tryc b _ f => stepsOf b ++ stepsOf f

/-- Suspension structure of a step: `none` when the step is not a
suspension point; `some t` when it suspends with timeout argument `t`
(`some (some ms)` for a bounded wait with an explicit value at the call
site, `some none` when no explicit timeout is passed).  The settling delay
suspends for exactly its explicit duration. -/
def suspTimeout : Step → Option (Option Nat)
  | .navigate _ t => some t
  | .waitVisible _ t => some t
  | .waitEnabled _ t => some t
  | .click _ => none
  | .settle ms => some (some ms)
  | .screenshot _ _ => none

/-- Every suspension point in the list carries an explicit timeout value. -/
def timeoutsExplicit (l : List Step) : Bool :=
  l.all fun s =>
    match suspTimeout s with
    | some none => false
    | _ => true

/-! The scripts, translated line by line. -/

/-- Models the driver rendering of the exception raised by a failing step;
the scripts interpolate this text into their failure prints. -/
def describe : Step → String
  | .navigate u _ => "Timeout while navigating to " ++ u
  | .waitVisible _ _ => "element not visible within timeout"
  | .waitEnabled _ _ => "element not enabled within timeout"
  | .click _ => "element not actionable"
  | .settle _ => "interrupted wait"
  | .screenshot _ _ => "screenshot failed"

/-- Heading locator shared by `verify_main_page.py` and
`verify_main_page_v2.py`: `get_by_role("heading", name="Zinseszins-Simulation")`. -/
def headingLoc : Locator := .byRole "heading" "Zinseszins-Simulation"

/-- Button locator shared by both main-page scripts:
`get_by_role("button", name="🔄 Neu berechnen")`. -/
def buttonLoc : Locator := .byRole "button" "🔄 Neu berechnen"

/-- Screenshot path of the main-page scripts and of `verify_fixes.py`. -/
def shotPath : String := "jules-scratch/verification/verification.png"

/-- Address for a candidate port: `f"http://localhost:{port}"`. -/
def url_of (port : Nat) : String := "http://localhost:" ++ toString port

/-! verify_main_page_v2.py -/

/-- Candidate ports of `verify_main_page_v2.py`. -/
def ports_to_try : List Nat := [5173, 5174, 5175, 5176, 5177]

/-- `page.goto(f"http://localhost:{port}", timeout=10000)`. -/
def v2_nav (port : Nat) : Step := .navigate (url_of port) (some 10000)

/-- `expect(...heading...).to_be_visible(timeout=10000)`. -/
def v2_vis : Step := .waitVisible headingLoc (some 10000)

/-- `expect(...button...).to_be_enabled(timeout=10000)`. -/
def v2_enab : Step := .waitEnabled buttonLoc (some 10000)

/-- `page.wait_for_timeout(2000)`. -/
def v2_settle : Step := .settle 2000

/-- `page.screenshot(path="jules-scratch/verification/verification.png")`. -/
def v2_shot : Step := .screenshot .fullPage shotPath

/-- First print inside the try block of one candidate attempt. -/
def tryingMsg (port : Nat) : String :=
  "Trying to connect to port " ++ toString port ++ "..."

/-- Success print of one candidate attempt. -/
def successMsg (port : Nat) : String :=
  "Screenshot taken successfully on port " ++ toString port ++ "."

/-- Failure print of one candidate attempt (the except handler). -/
def failMsg (port : Nat) (s : Step) : String :=
  "Could not connect to port " ++ toString port ++ ": " ++ describe s

/-- One iteration of the loop in `verify_main_page_v2.run`: launch the
browser, then try navigation, the two readiness waits, the settling delay,
the screenshot, the success print, a close and an early return; the except
handler prints the failure; the finally part closes the browser. -/
def v2_body (port : Nat) : Prog :=
  .seq .launch <|
    .tryc
      (seqAll
        [ .message (tryingMsg port),
          .step (v2_nav port),
          .step v2_vis,
          .step v2_enab,
          .step v2_settle,
          .step v2_shot,
          .message (successMsg port),
          .closeB,
          .ret ])
      (fun s => failMsg port s)
      .closeB

/-- The loop of `verify_main_page_v2.run` over a candidate list, with the
final failure print after the loop.  Each candidate gets its own driver
oracle (its own page state), so the orchestrator runs under
`env : Nat → Env`.  An attempt ending normally (its exception was caught)
lets the loop advance; an early return or an uncaught raise stops it. -/
def run_v2_orch (env : Nat → Env) : List Nat → List Event × Ctl
  | [] => ([.printed "Failed to connect to any of the ports."], .normal)
  | p :: ps =>
      match interp (env p) (v2_body p) with
      | (tr, .normal) =>
          match run_v2_orch env ps with
          | (tr2, c2) => (tr ++ tr2, c2)
      | (tr, c) => (tr, c)

/-- One candidate attempt ended in the `Captured` outcome (the early
return after the screenshot was reached). -/
def v2_captured (env : Nat → Env) (p : Nat) : Bool :=
  decide ((interp (env p) (v2_body p)).2 = Ctl.returned)

/-! verify_main_page.py -/

/-- `page.goto("http://localhost:5174", timeout=30000)`. -/
def v1_nav : Step := .navigate "http://localhost:5174" (some 30000)

/-- Readiness wait on the heading in `verify_main_page.py`:
`to_be_visible(timeout=15000)`. -/
def v1_vis : Step := .waitVisible headingLoc (some 15000)

/-- Readiness wait on the action button in `verify_main_page.py`:
`to_be_enabled(timeout=15000)`. -/
def v1_enab : Step := .waitEnabled buttonLoc (some 15000)

/-- `page.wait_for_timeout(2000)` in `verify_main_page.py`. -/
def v1_settle : Step := .settle 2000

/-- `page.screenshot(path=...)` in `verify_main_page.py`. -/
def v1_shot : Step := .screenshot .fullPage shotPath

/-- The body of `verify_main_page.run`: single fixed address, explicit
timeouts, try/except/finally with the close only in the finally part. -/
def v1_prog : Prog :=
  .seq .launch <|
    .tryc
      (seqAll
        [ .step v1_nav,
          .step v1_vis,
          .step v1_enab,
          .step v1_settle,
          .step v1_shot,
          .message "Screenshot taken successfully." ])
      (fun s => "An error occurred: " ++ describe s)
      .closeB

/-! verify_dynamic_withdrawal.py -/

/-- Panel-header button locator: `get_by_role("button", name="💸 Entnahme")`. -/
def panelLoc : Locator := .byRole "button" "💸 Entnahme"

/-- Radio locator: `get_by_role("radio", name="Dynamische Entnahme")`. -/
def radioLoc : Locator := .byRole "radio" "Dynamische Entnahme"

/-- Text locator: `get_by_text("Regeln für dynamische Anpassung:")`. -/
def dynTextLoc : Locator := .byText "Regeln für dynamische Anpassung:"

/-- `page.goto("http://localhost:5173/")` — no explicit timeout. -/
def dyn_nav : Step := .navigate "http://localhost:5173/" none

/-- `entnahme_panel_header.click()`. -/
def dyn_clickPanel : Step := .click panelLoc

/-- `dynamic_strategy_radio.click()`. -/
def dyn_clickRadio : Step := .click radioLoc

/-- `expect(dynamic_panel_text).to_be_visible()` — no explicit timeout. -/
def dyn_waitText : Step := .waitVisible dynTextLoc none

/-- `entnahme_panel_header.locator("..").screenshot(path=...)`: screenshot
of the parent of the located panel-header button. -/
def dyn_shot : Step :=
  .screenshot (.parentOf panelLoc) "jules-scratch/verification/dynamic_withdrawal_ui.png"

/-- The body of `verify_dynamic_withdrawal.run`: launch, navigate, expand
the panel, select the radio, wait for the conditional text, screenshot the
panel container, close.  There is no try/except/finally. -/
def dyn_prog : Prog :=
  seqAll
    [ .launch,
      .step dyn_nav,
      .step dyn_clickPanel,
      .step dyn_clickRadio,
      .step dyn_waitText,
      .step dyn_shot,
      .closeB ]

/-! verify_fixes.py -/

/-- `page.goto("http://localhost:5173")` — no explicit timeout. -/
def fixes_nav : Step := .navigate "http://localhost:5173" none

/-- `page.screenshot(path="jules-scratch/verification/verification.png")`. -/
def fixes_shot : Step := .screenshot .fullPage shotPath

/-- The body of `verify_fixes.test_screenshot`: the page is supplied by
the test fixture (no launch/close here); navigate, then screenshot. -/
def test_screenshot : Prog :=
  seqAll [ .step fixes_nav, .step fixes_shot ]

/-- All driver steps of the `verify_main_page_v2.py` entry point (every
loop iteration). -/
def v2_allSteps : List Step :=
  ports_to_try.flatMap fun p => stepsOf (v2_body p)

/-! Characterization lemmas: the interpretation of each script, as a case
split over which fallible steps the driver oracle lets succeed. -/

@[simp] lemma effOk_v2_nav (e : Env) (p : Nat) : effOk e (v2_nav p) = e (v2_nav p) := rfl

@[simp] lemma effOk_v2_vis (e : Env) : effOk e v2_vis = e v2_vis := rfl

@[simp] lemma effOk_v2_enab (e : Env) : effOk e v2_enab = e v2_enab := rfl

@[simp] lemma effOk_v2_settle (e : Env) : effOk e v2_settle = true := rfl

@[simp] lemma effOk_v2_shot (e : Env) : effOk e v2_shot = e v2_shot := rfl

lemma v2_body_eq (e : Env) (p : Nat) :
    interp e (v2_body p) =
      if e (v2_nav p) = true then
        if e v2_vis = true then
          if e v2_enab = true then
            if e v2_shot = true then
              ([.openSession, .printed (tryingMsg p), .doStep (v2_nav p) true,
                .doStep v2_vis true, .doStep v2_enab true, .doStep v2_settle true,
                .doStep v2_shot true, .printed (successMsg p),
                .closeSession, .closeSession], .returned)
            else
              ([.openSession, .printed (tryingMsg p), .doStep (v2_nav p) true,
                .doStep v2_vis true, .doStep v2_enab true, .doStep v2_settle true,
                .doStep v2_shot false, .printed (failMsg p v2_shot),
                .closeSession], .normal)
          else
            ([.openSession, .printed (tryingMsg p), .doStep (v2_nav p) true,
              .doStep v2_vis true, .doStep v2_enab false,
              .printed (failMsg p v2_enab), .closeSession], .normal)
        else
          ([.openSession, .printed (tryingMsg p), .doStep (v2_nav p) true,
            .doStep v2_vis false, .printed (failMsg p v2_vis), .closeSession], .normal)
      else
        ([.openSession, .printed (tryingMsg p), .doStep (v2_nav p) false,
          .printed (failMsg p (v2_nav p)), .closeSession], .normal) := by
  cases h1 : e (v2_nav p) <;> cases h2 : e v2_vis <;> cases h3 : e v2_enab <;>
    cases h4 : e v2_shot <;>
      simp [v2_body, seqAll, interp, h1, h2, h3, h4]

@[simp] lemma effOk_v1_nav (e : Env) : effOk e v1_nav = e v1_nav := rfl

@[simp] lemma effOk_v1_vis (e : Env) : effOk e v1_vis = e v1_vis := rfl

@[simp] lemma effOk_v1_enab (e : Env) : effOk e v1_enab = e v1_enab := rfl

@[simp] lemma effOk_v1_settle (e : Env) : effOk e v1_settle = true := rfl

@[simp] lemma effOk_v1_shot (e : Env) : effOk e v1_shot = e v1_shot := rfl

lemma v1_prog_eq (e : Env) :
    interp e v1_prog =
      if e v1_nav = true then
        if e v1_vis = true then
          if e v1_enab = true then
            if e v1_shot = true then
              ([.openSession, .doStep v1_nav true, .doStep v1_vis true,
                .doStep v1_enab true, .doStep v1_settle true, .doStep v1_shot true,
                .printed "Screenshot taken successfully.", .closeSession], .normal)
            else
              ([.openSession, .doStep v1_nav true, .doStep v1_vis true,
                .doStep v1_enab true, .doStep v1_settle true, .doStep v1_shot false,
                .printed ("An error occurred: " ++ describe v1_shot),
                .closeSession], .normal)
          else
            ([.openSession, .doStep v1_nav true, .doStep v1_vis true,
              .doStep v1_enab false,
              .printed ("An error occurred: " ++ describe v1_enab),
              .closeSession], .normal)
        else
          ([.openSession, .doStep v1_nav true, .doStep v1_vis false,
            .printed ("An error occurred: " ++ describe v1_vis),
            .closeSession], .normal)
      else
        ([.openSession, .doStep v1_nav false,
          .printed ("An error occurred: " ++ describe v1_nav),
          .closeSession], .normal) := by
  cases h1 : e v1_nav <;> cases h2 : e v1_vis <;> cases h3 : e v1_enab <;>
    cases h4 : e v1_shot <;>
      simp [v1_prog, seqAll, interp, h1, h2, h3, h4]

@[simp] lemma effOk_dyn_nav (e : Env) : effOk e dyn_nav = e dyn_nav := rfl

@[simp] lemma effOk_dyn_clickPanel (e : Env) : effOk e dyn_clickPanel = e dyn_clickPanel := rfl

@[simp] lemma effOk_dyn_clickRadio (e : Env) : effOk e dyn_clickRadio = e dyn_clickRadio := rfl

@[simp] lemma effOk_dyn_waitText (e : Env) : effOk e dyn_waitText = e dyn_waitText := rfl

@[simp] lemma effOk_dyn_shot (e : Env) : effOk e dyn_shot = e dyn_shot := rfl

lemma dyn_prog_eq (e : Env) :
    interp e dyn_prog =
      if e dyn_nav = true then
        if e dyn_clickPanel = true then
          if e dyn_clickRadio = true then
            if e dyn_waitText = true then
              if e dyn_shot = true then
                ([.openSession, .doStep dyn_nav true, .doStep dyn_clickPanel true,
                  .doStep dyn_clickRadio true, .doStep dyn_waitText true,
                  .doStep dyn_shot true, .closeSession], .normal)
              else
                ([.openSession, .doStep dyn_nav true, .doStep dyn_clickPanel true,
                  .doStep dyn_clickRadio true, .doStep dyn_waitText true,
                  .doStep dyn_shot false], .raised dyn_shot)
            else
              ([.openSession, .doStep dyn_nav true, .doStep dyn_clickPanel true,
                .doStep dyn_clickRadio true, .doStep dyn_waitText false],
               .raised dyn_waitText)
          else
            ([.openSession, .doStep dyn_nav true, .doStep dyn_clickPanel true,
              .doStep dyn_clickRadio false], .raised dyn_clickRadio)
        else
          ([.openSession, .doStep dyn_nav true, .doStep dyn_clickPanel false],
           .raised dyn_clickPanel)
      else
        ([.openSession, .doStep dyn_nav false], .raised dyn_nav) := by
  cases h1 : e dyn_nav <;> cases h2 : e dyn_clickPanel <;>
    cases h3 : e dyn_clickRadio <;> cases h4 : e dyn_waitText <;>
      cases h5 : e dyn_shot <;>
        simp [dyn_prog, seqAll, interp, h1, h2, h3, h4, h5]

@[simp] lemma effOk_fixes_nav (e : Env) : effOk e fixes_nav = e fixes_nav := rfl

@[simp] lemma effOk_fixes_shot (e : Env) : effOk e fixes_shot = e fixes_shot := rfl

lemma fixes_eq (e : Env) :
    interp e test_screenshot =
      if e fixes_nav = true then
        if e fixes_shot = true then
          ([.doStep fixes_nav true, .doStep fixes_shot true], .normal)
        else
          ([.doStep fixes_nav true, .doStep fixes_shot false], .raised fixes_shot)
      else
        ([.doStep fixes_nav false], .raised fixes_nav) := by
  cases h1 : e fixes_nav <;> cases h2 : e fixes_shot <;>
    simp [test_screenshot, seqAll, interp, h1, h2]

/-! Facts about one candidate attempt of `verify_main_page_v2.run`. -/

lemma attemptsOf_append (l1 l2 : List Event) :
    attemptsOf (l1 ++ l2) = attemptsOf l1 ++ attemptsOf l2 := by
  simp [attemptsOf]

lemma printsOf_append (l1 l2 : List Event) :
    printsOf (l1 ++ l2) = printsOf l1 ++ printsOf l2 := by
  simp [printsOf]

lemma openCount_append (l1 l2 : List Event) :
    openCount (l1 ++ l2) = openCount l1 + openCount l2 := by
  simp [openCount]

lemma v2_attempt_ctl (e : Env) (p : Nat) :
    (interp e (v2_body p)).2 = Ctl.returned ∨ (interp e (v2_body p)).2 = Ctl.normal := by
  rw [v2_body_eq]
  split_ifs <;> simp

lemma v2_attempt_nav (e : Env) (p : Nat) :
    attemptsOf (interp e (v2_body p)).1 = [url_of p] := by
  rw [v2_body_eq]
  split_ifs <;>
    simp [attemptsOf, v2_nav, v2_vis, v2_enab, v2_settle, v2_shot]

lemma v2_attempt_open (e : Env) (p : Nat) :
    openCount (interp e (v2_body p)).1 = 1 := by
  rw [v2_body_eq]
  split_ifs <;> simp [openCount]

lemma v2_attempt_close (e : Env) (p : Nat) :
    closeCount (interp e (v2_body p)).1 =
      (if (interp e (v2_body p)).2 = Ctl.returned then 2 else 1) := by
  cases h1 : e (v2_nav p) <;> cases h2 : e v2_vis <;> cases h3 : e v2_enab <;>
    cases h4 : e v2_shot <;>
      simp [v2_body_eq, h1, h2, h3, h4, closeCount]

lemma v2_attempt_captured_iff (e : Env) (p : Nat) :
    (interp e (v2_body p)).2 = Ctl.returned ↔
      (e (v2_nav p) && e v2_vis && e v2_enab && e v2_shot) = true := by
  cases h1 : e (v2_nav p) <;> cases h2 : e v2_vis <;> cases h3 : e v2_enab <;>
    cases h4 : e v2_shot <;>
      simp [v2_body_eq, h1, h2, h3, h4]

lemma v2_attempt_files (e : Env) (p : Nat) :
    shotPath ∈ filesWritten (interp e (v2_body p)).1 ↔
      (interp e (v2_body p)).2 = Ctl.returned := by
  cases h1 : e (v2_nav p) <;> cases h2 : e v2_vis <;> cases h3 : e v2_enab <;>
    cases h4 : e v2_shot <;>
      simp [v2_body_eq, h1, h2, h3, h4] <;>
        simp [filesWritten, v2_nav, v2_vis, v2_enab, v2_settle, v2_shot]

lemma v2_attempt_files_nil (e : Env) (p : Nat)
    (h : (interp e (v2_body p)).2 ≠ Ctl.returned) :
    filesWritten (interp e (v2_body p)).1 = [] := by
  cases h1 : e (v2_nav p) <;> cases h2 : e v2_vis <;> cases h3 : e v2_enab <;>
    cases h4 : e v2_shot <;>
      simp [v2_body_eq, h1, h2, h3, h4] at h ⊢ <;>
        simp [filesWritten, v2_nav, v2_vis, v2_enab, v2_settle, v2_shot]

lemma v2_attempt_fail_print (e : Env) (p : Nat)
    (h : (interp e (v2_body p)).2 = Ctl.normal) :
    ∃ s, Event.printed (failMsg p s) ∈ (interp e (v2_body p)).1 := by
  cases h1 : e (v2_nav p)
  · exact ⟨v2_nav p, by simp [v2_body_eq, h1]⟩
  · cases h2 : e v2_vis
    · exact ⟨v2_vis, by simp [v2_body_eq, h1, h2]⟩
    · cases h3 : e v2_enab
      · exact ⟨v2_enab, by simp [v2_body_eq, h1, h2, h3]⟩
      · cases h4 : e v2_shot
        · exact ⟨v2_shot, by simp [v2_body_eq, h1, h2, h3, h4]⟩
        · rw [v2_body_eq] at h
          simp [h1, h2, h3, h4] at h

lemma v2_attempt_success_print (e : Env) (p : Nat)
    (h : (interp e (v2_body p)).2 = Ctl.returned) :
    Event.printed (successMsg p) ∈ (interp e (v2_body p)).1 := by
  cases h1 : e (v2_nav p) <;> cases h2 : e v2_vis <;> cases h3 : e v2_enab <;>
    cases h4 : e v2_shot <;>
      rw [v2_body_eq] at h ⊢ <;>
        simp [h1, h2, h3, h4] at h ⊢

/-! The orchestrator loop of `verify_main_page_v2.run`. -/

lemma run_v2_orch_attempts (env : Nat → Env) (ports : List Nat) :
    attemptsOf (run_v2_orch env ports).1 =
      ((ports.takeWhile fun p => ! v2_captured env p)
        ++ (ports.dropWhile fun p => ! v2_captured env p).take 1).map url_of
    ∧ openCount (run_v2_orch env ports).1 =
      ((ports.takeWhile fun p => ! v2_captured env p)
        ++ (ports.dropWhile fun p => ! v2_captured env p).take 1).length := by
  induction ports with
  | nil => simp [run_v2_orch, attemptsOf, openCount]
  | cons p ps ih =>
    rcases hE : interp (env p) (v2_body p) with ⟨tr, c⟩
    have hnav := v2_attempt_nav (env p) p
    have hopen := v2_attempt_open (env p) p
    rw [hE] at hnav hopen
    rcases v2_attempt_ctl (env p) p with hc | hc <;> rw [hE] at hc <;> subst hc
    · have hcap : v2_captured env p = true := by
        simp [v2_captured, hE]
      simp [run_v2_orch, hE, hcap, hnav, hopen]
    · have hcap : v2_captured env p = false := by
        simp [v2_captured, hE]
      rcases hR : run_v2_orch env ps with ⟨tr2, c2⟩
      rw [hR] at ih
      simp [run_v2_orch, hE, hR, hcap, attemptsOf_append, openCount_append,
        hnav, hopen, ih.1, ih.2, Nat.add_comm]

lemma mem_printsOf {m : String} {tr : List Event} (h : Event.printed m ∈ tr) :
    m ∈ printsOf tr := by
  simp only [printsOf, List.mem_filterMap]
  exact ⟨.printed m, h, rfl⟩

lemma run_v2_orch_allfail (env : Nat → Env) (ports : List Nat)
    (h : ∀ p ∈ ports, (interp (env p) (v2_body p)).2 = Ctl.normal) :
    (run_v2_orch env ports).2 = Ctl.normal
    ∧ "Failed to connect to any of the ports." ∈ printsOf (run_v2_orch env ports).1
    ∧ ∀ p ∈ ports, ∃ s, failMsg p s ∈ printsOf (run_v2_orch env ports).1 := by
  induction ports with
  | nil =>
    refine ⟨rfl, ?_, by simp⟩
    simp [run_v2_orch, printsOf]
  | cons p ps ih =>
    have hp := h p (List.mem_cons_self p ps)
    obtain ⟨s, hs⟩ := v2_attempt_fail_print (env p) p hp
    rcases hE : interp (env p) (v2_body p) with ⟨tr, c⟩
    rw [hE] at hp hs
    subst hp
    have ih2 := ih fun q hq => h q (List.mem_cons_of_mem _ hq)
    rcases hR : run_v2_orch env ps with ⟨tr2, c2⟩
    rw [hR] at ih2
    have hrun : run_v2_orch env (p :: ps) = (tr ++ tr2, c2) := by
      simp [run_v2_orch, hE, hR]
    rw [hrun]
    refine ⟨ih2.1, ?_, ?_⟩
    · simp only [printsOf_append, List.mem_append]
      exact Or.inr ih2.2.1
    · intro q hq
      rcases List.mem_cons.mp hq with rfl | hq2
      · exact ⟨s, by
          simp only [printsOf_append, List.mem_append]
          exact Or.inl (mem_printsOf hs)⟩
      · obtain ⟨s2, hs2⟩ := ih2.2.2 q hq2
        exact ⟨s2, by
          simp only [printsOf_append, List.mem_append]
          exact Or.inr hs2⟩

/-! Concrete driver oracles used for witnesses and counterexamples. -/

/-- Oracle under which every step succeeds. -/
def envAll : Env := fun _ => true

/-- Oracle under which every fallible step fails. -/
def envNone : Env := fun _ => false

/-- Per-candidate oracle family where every step succeeds. -/
def orchAll : Nat → Env := fun _ => envAll

/-- Per-candidate oracle family where every attempt fails. -/
def orchNone : Nat → Env := fun _ => envNone

/-- Oracle under which everything succeeds except screenshot capture. -/
def envShotFail : Env := fun s =>
  match s with
  | .screenshot _ _ => false
  | _ => true

/-- Oracle under which everything succeeds except waiting for text
visibility (the dynamic-panel text never appears). -/
def envDynTextFail : Env := fun s =>
  match s with
  | .waitVisible (.byText _) _ => false
  | _ => true

/-! Claim C1. -/

/-- Claim C1: for every non-empty candidate port sequence, the loop in
verify_main_page_v2.run navigates (and launches a session) exactly once
per tried candidate, in list order: the tried candidates are exactly the
longest all-failing prefix of the list followed by the first captured
candidate if one exists, so after a Captured outcome no further candidate
is tried. -/
theorem claim_C1_orchestrator_order (env : Nat → Env) (ports : List Nat)
    (_hne : ports ≠ []) :
    attemptsOf (run_v2_orch env ports).1 =
      ((ports.takeWhile fun p => ! v2_captured env p)
        ++ (ports.dropWhile fun p => ! v2_captured env p).take 1).map url_of
    ∧ openCount (run_v2_orch env ports).1 =
      ((ports.takeWhile fun p => ! v2_captured env p)
        ++ (ports.dropWhile fun p => ! v2_captured env p).take 1).length :=
  run_v2_orch_attempts env ports

/-- Witness for claim C1 at the concrete all-failing oracle and the
one-candidate list. -/
theorem claim_C1_orchestrator_order_witness :
    ([5173] : List Nat) ≠ []
    ∧ (attemptsOf (run_v2_orch orchNone [5173]).1 =
        ((([5173] : List Nat).takeWhile fun p => ! v2_captured orchNone p)
          ++ (([5173] : List Nat).dropWhile fun p => ! v2_captured orchNone p).take 1).map url_of
      ∧ openCount (run_v2_orch orchNone [5173]).1 =
        ((([5173] : List Nat).takeWhile fun p => ! v2_captured orchNone p)
          ++ (([5173] : List Nat).dropWhile fun p => ! v2_captured orchNone p).take 1).length) :=
  ⟨by decide, claim_C1_orchestrator_order orchNone [5173] (by decide)⟩

/-! Claim C2. -/

/-- Counterexample to claim C2: in verify_dynamic_withdrawal.run, when the
readiness wait on the dynamic-panel text times out, the session that was
opened is never closed — the invocation exits with an uncaught exception
and an open browser, refuting that a session is closed exactly once on
every exit path. -/
theorem claim_C2_counterexample :
    openCount (interp envDynTextFail dyn_prog).1 = 1
    ∧ closeCount (interp envDynTextFail dyn_prog).1 = 0
    ∧ (interp envDynTextFail dyn_prog).2 = Ctl.raised dyn_waitText := by
  decide

/-- Claim C2 as amended: in verify_main_page_v2 each invocation opens the
session exactly once and always closes it before control returns — once on
failure paths and twice (redundantly) on the success path — and never
exits by an uncaught exception; in verify_dynamic_withdrawal the session
is opened once but closed exactly once only when every step succeeds, and
is left open (zero closes) whenever any step fails. -/
theorem claim_C2_session_lifecycle (e : Env) (p : Nat) :
    (openCount (interp e (v2_body p)).1 = 1
      ∧ closeCount (interp e (v2_body p)).1 =
          (if (interp e (v2_body p)).2 = Ctl.returned then 2 else 1)
      ∧ ∀ s, (interp e (v2_body p)).2 ≠ Ctl.raised s)
    ∧ (openCount (interp e dyn_prog).1 = 1
      ∧ closeCount (interp e dyn_prog).1 =
          (if (interp e dyn_prog).2 = Ctl.normal then 1 else 0)) := by
  refine ⟨⟨v2_attempt_open e p, v2_attempt_close e p, ?_⟩, ?_, ?_⟩
  · intro s hs
    rcases v2_attempt_ctl e p with hc | hc <;> rw [hc] at hs <;> exact Ctl.noConfusion hs
  · cases h1 : e dyn_nav <;> cases h2 : e dyn_clickPanel <;>
      cases h3 : e dyn_clickRadio <;> cases h4 : e dyn_waitText <;>
        cases h5 : e dyn_shot <;>
          simp [dyn_prog_eq, h1, h2, h3, h4, h5, openCount]
  · cases h1 : e dyn_nav <;> cases h2 : e dyn_clickPanel <;>
      cases h3 : e dyn_clickRadio <;> cases h4 : e dyn_waitText <;>
        cases h5 : e dyn_shot <;>
          simp [dyn_prog_eq, h1, h2, h3, h4, h5, closeCount]

/-- Witness for the amended claim C2: its universal part applied at a
concrete oracle, deriving a closed consequence. -/
theorem claim_C2_session_lifecycle_witness :
    (interp envAll (v2_body 5173)).2 ≠ Ctl.raised v2_vis :=
  (claim_C2_session_lifecycle envAll 5173).1.2.2 v2_vis

/-! Claim C3. -/

/-- Counterexample to claim C3: in verify_dynamic_withdrawal a readiness
timeout is not recovered locally: nothing at all is printed and the
failure propagates out of the run as an uncaught exception, although only
one candidate attempt (not all) has failed. -/
theorem claim_C3_counterexample :
    (interp envDynTextFail dyn_prog).2 = Ctl.raised dyn_waitText
    ∧ printsOf (interp envDynTextFail dyn_prog).1 = [] := by
  decide

/-- Claim C3 as amended: in verify_main_page_v2 every step failure during
a candidate attempt is recovered locally — the attempt never exits by an
uncaught exception, and on failure a per-candidate failure message is
printed, so the loop advances; in verify_dynamic_withdrawal nothing is
ever printed and the run completes normally exactly when every step
succeeds, so any step failure propagates unrecovered as a fatal error. -/
theorem claim_C3_local_recovery (e : Env) (p : Nat) :
    ((interp e (v2_body p)).2 = Ctl.returned ∨ (interp e (v2_body p)).2 = Ctl.normal)
    ∧ ((interp e (v2_body p)).2 = Ctl.normal →
        ∃ s, Event.printed (failMsg p s) ∈ (interp e (v2_body p)).1)
    ∧ printsOf (interp e dyn_prog).1 = []
    ∧ ((interp e dyn_prog).2 = Ctl.normal ↔
        (e dyn_nav && e dyn_clickPanel && e dyn_clickRadio
          && e dyn_waitText && e dyn_shot) = true) := by
  refine ⟨v2_attempt_ctl e p, v2_attempt_fail_print e p, ?_, ?_⟩
  · cases h1 : e dyn_nav <;> cases h2 : e dyn_clickPanel <;>
      cases h3 : e dyn_clickRadio <;> cases h4 : e dyn_waitText <;>
        cases h5 : e dyn_shot <;>
          simp [dyn_prog_eq, h1, h2, h3, h4, h5, printsOf]
  · cases h1 : e dyn_nav <;> cases h2 : e dyn_clickPanel <;>
      cases h3 : e dyn_clickRadio <;> cases h4 : e dyn_waitText <;>
        cases h5 : e dyn_shot <;>
          simp [dyn_prog_eq, h1, h2, h3, h4, h5]

/-- Witness for the amended claim C3: its failure-print part applied at
the all-failing oracle. -/
theorem claim_C3_local_recovery_witness :
    ∃ s, Event.printed (failMsg 5173 s) ∈ (interp envNone (v2_body 5173)).1 :=
  (claim_C3_local_recovery envNone 5173).2.1 (by decide)

/-! Claim C4. -/

/-- Claim C4: within one session-runner invocation of
verify_main_page_v2 (and likewise verify_main_page), readiness conditions
are evaluated in declared order — wherever the trace contains an
evaluation of the enabled-check on the action button, a successful
visibility check of the heading occurs strictly earlier in the trace. -/
theorem claim_C4_readiness_order :
    (∀ (e : Env) (p : Nat) (b : Bool) (j : Nat),
        (interp e (v2_body p)).1[j]? = some (.doStep v2_enab b) →
        ∃ i, i < j ∧ (interp e (v2_body p)).1[i]? = some (.doStep v2_vis true))
    ∧ (∀ (e : Env) (b : Bool) (j : Nat),
        (interp e v1_prog).1[j]? = some (.doStep v1_enab b) →
        ∃ i, i < j ∧ (interp e v1_prog).1[i]? = some (.doStep v1_vis true)) := by
  constructor
  · intro e p b j h
    rw [v2_body_eq] at h ⊢
    cases h1 : e (v2_nav p) <;> cases h2 : e v2_vis <;> cases h3 : e v2_enab <;>
      cases h4 : e v2_shot <;>
        simp only [h1, h2, h3, h4, if_true, if_false, Bool.false_eq_true,
          reduceIte] at h ⊢ <;>
          rcases j with _ | (_ | (_ | (_ | (_ | (_ | (_ | (_ | (_ | (_ | n))))))))) <;>
            simp [v2_nav, v2_vis, v2_enab, v2_settle, v2_shot] at h <;>
              exact ⟨3, by omega, by rfl⟩
  · intro e b j h
    rw [v1_prog_eq] at h ⊢
    cases h1 : e v1_nav <;> cases h2 : e v1_vis <;> cases h3 : e v1_enab <;>
      cases h4 : e v1_shot <;>
        simp only [h1, h2, h3, h4, if_true, if_false, Bool.false_eq_true,
          reduceIte] at h ⊢ <;>
          rcases j with _ | (_ | (_ | (_ | (_ | (_ | (_ | (_ | n))))))) <;>
            simp [v1_nav, v1_vis, v1_enab, v1_settle, v1_shot] at h <;>
              exact ⟨2, by omega, by rfl⟩

/-- Witness for claim C4 at the all-succeeding oracle: in that run the
enabled-check appears at index 4 and a successful heading check strictly
before it. -/
theorem claim_C4_readiness_order_witness :
    ∃ i, i < 4 ∧ (interp envAll (v2_body 5173)).1[i]? = some (.doStep v2_vis true) :=
  claim_C4_readiness_order.1 envAll 5173 true 4 (by decide)

/-! Claim C5. -/

/-- Counterexample to claim C5: an attempt of verify_main_page_v2 in which
both readiness conditions are satisfied (their checks succeed in the
trace) and no interaction fails, yet no screenshot file is written,
because the capture step itself fails. -/
theorem claim_C5_counterexample :
    Event.doStep v2_vis true ∈ (interp envShotFail (v2_body 5173)).1
    ∧ Event.doStep v2_enab true ∈ (interp envShotFail (v2_body 5173)).1
    ∧ filesWritten (interp envShotFail (v2_body 5173)).1 = [] := by
  decide

/-- Claim C5 as amended: a screenshot file is produced by an attempt of
verify_main_page_v2 if and only if the attempt ends in the Captured
outcome (the early return after capture); in particular when any step
fails — including the capture itself — no screenshot is written by that
attempt.  The original claim further asserted that satisfied readiness
conditions alone guarantee the file; that holds only when the capture
step also succeeds. -/
theorem claim_C5_screenshot_iff_captured (e : Env) (p : Nat) :
    (shotPath ∈ filesWritten (interp e (v2_body p)).1 ↔
      (interp e (v2_body p)).2 = Ctl.returned)
    ∧ ((interp e (v2_body p)).2 ≠ Ctl.returned →
        filesWritten (interp e (v2_body p)).1 = []) :=
  ⟨v2_attempt_files e p, v2_attempt_files_nil e p⟩

/-- Witness for the amended claim C5 at the all-failing oracle. -/
theorem claim_C5_screenshot_iff_captured_witness :
    filesWritten (interp envNone (v2_body 5173)).1 = [] :=
  (claim_C5_screenshot_iff_captured envNone 5173).2 (by decide)

/-! Claim C6. -/

/-- Claim C6: on the empty candidate list, the loop in
verify_main_page_v2.run immediately prints the overall failure message and
returns normally, launching no browser and attempting no navigation. -/
theorem claim_C6_empty_candidates (env : Nat → Env) :
    run_v2_orch env [] = ([.printed "Failed to connect to any of the ports."], .normal)
    ∧ openCount (run_v2_orch env []).1 = 0
    ∧ attemptsOf (run_v2_orch env []).1 = [] := by
  refine ⟨rfl, ?_, ?_⟩ <;> simp [run_v2_orch, openCount, attemptsOf]

/-! Claim C7. -/

/-- Counterexample to claim C7: the navigation call of
verify_dynamic_withdrawal.py and that of verify_fixes.py are suspension
points that pass no explicit timeout at the call site (the driver default
applies), refuting that every suspension point in every entry point is
bounded by an explicit call-site timeout. -/
theorem claim_C7_counterexample :
    dyn_nav ∈ stepsOf dyn_prog ∧ suspTimeout dyn_nav = some none
    ∧ fixes_nav ∈ stepsOf test_screenshot ∧ suspTimeout fixes_nav = some none := by
  decide

/-- Claim C7 as amended: every suspension point in verify_main_page_v2.py
and verify_main_page.py carries an explicit timeout at the call site; in
verify_dynamic_withdrawal.py exactly the navigation and the text
visibility wait, and in verify_fixes.py exactly the navigation, pass no
explicit timeout and rely on the driver defaults. -/
theorem claim_C7_timeouts :
    timeoutsExplicit v2_allSteps = true
    ∧ timeoutsExplicit (stepsOf v1_prog) = true
    ∧ ((stepsOf dyn_prog).filter fun s => decide (suspTimeout s = some none))
        = [dyn_nav, dyn_waitText]
    ∧ ((stepsOf test_screenshot).filter fun s => decide (suspTimeout s = some none))
        = [fixes_nav] := by
  decide

/-! Claim C8. -/

/-- Claim C8: in verify_dynamic_withdrawal, when navigation and both
clicks succeed, the steps occur in order — panel button clicked, radio
selected, dynamic-panel text waited on, and only then the screenshot of
the parent of the panel-header button; if the text does not become visible
in time, the run fails with the readiness timeout of exactly that wait and
no screenshot step is reached. -/
theorem claim_C8_dynamic_scenario (e : Env)
    (h1 : e dyn_nav = true) (h2 : e dyn_clickPanel = true)
    (h3 : e dyn_clickRadio = true) :
    (e dyn_waitText = true →
      (interp e dyn_prog).1 =
        [.openSession, .doStep dyn_nav true, .doStep dyn_clickPanel true,
         .doStep dyn_clickRadio true, .doStep dyn_waitText true,
         .doStep dyn_shot (e dyn_shot)]
          ++ (if e dyn_shot = true then [Event.closeSession] else []))
    ∧ (e dyn_waitText = false →
        (interp e dyn_prog).2 = Ctl.raised dyn_waitText
        ∧ filesWritten (interp e dyn_prog).1 = []
        ∧ (interp e dyn_prog).1 =
            [.openSession, .doStep dyn_nav true, .doStep dyn_clickPanel true,
             .doStep dyn_clickRadio true, .doStep dyn_waitText false]) := by
  cases h4 : e dyn_waitText <;> cases h5 : e dyn_shot <;>
    simp [dyn_prog_eq, h1, h2, h3, h4, h5] <;>
      simp [filesWritten, dyn_nav, dyn_clickPanel, dyn_clickRadio,
        dyn_waitText, dyn_shot]

/-- Witness for claim C8 at the all-succeeding oracle. -/
theorem claim_C8_dynamic_scenario_witness :
    (interp envAll dyn_prog).1 =
      [.openSession, .doStep dyn_nav true, .doStep dyn_clickPanel true,
       .doStep dyn_clickRadio true, .doStep dyn_waitText true,
       .doStep dyn_shot (envAll dyn_shot)]
        ++ (if envAll dyn_shot = true then [Event.closeSession] else []) :=
  (claim_C8_dynamic_scenario envAll rfl rfl rfl).1 rfl

/-! Claim C9. -/

/-- Claim C9: for every run of verify_main_page_v2 in which all candidates
fail, the loop catches every exception of every attempt, the run exits
normally (no exception escapes), the final failure message is printed, and
for each candidate a per-candidate failure message is printed. -/
theorem claim_C9_exhaustion (env : Nat → Env)
    (h : ∀ p ∈ ports_to_try, (interp (env p) (v2_body p)).2 ≠ Ctl.returned) :
    (run_v2_orch env ports_to_try).2 = Ctl.normal
    ∧ "Failed to connect to any of the ports."
        ∈ printsOf (run_v2_orch env ports_to_try).1
    ∧ ∀ p ∈ ports_to_try, ∃ s,
        failMsg p s ∈ printsOf (run_v2_orch env ports_to_try).1 := by
  refine run_v2_orch_allfail env ports_to_try fun p hp => ?_
  rcases v2_attempt_ctl (env p) p with hc | hc
  · exact absurd hc (h p hp)
  · exact hc

/-- Witness for claim C9 at the all-failing oracle family. -/
theorem claim_C9_exhaustion_witness :
    (∀ p ∈ ports_to_try, (interp (orchNone p) (v2_body p)).2 ≠ Ctl.returned)
    ∧ ((run_v2_orch orchNone ports_to_try).2 = Ctl.normal
      ∧ "Failed to connect to any of the ports."
          ∈ printsOf (run_v2_orch orchNone ports_to_try).1
      ∧ ∀ p ∈ ports_to_try, ∃ s,
          failMsg p s ∈ printsOf (run_v2_orch orchNone ports_to_try).1) :=
  ⟨by decide, claim_C9_exhaustion orchNone (by decide)⟩

/-! Claim C10. -/

/-- Claim C10: verify_fixes.test_screenshot declares no readiness
conditions and no interactions; whenever its navigation succeeds, the
screenshot capture at the fixed path is executed immediately after it with
no visibility or enablement check in between, and the file is written at
that path when the capture completes. -/
theorem claim_C10_fixes_unconditional (e : Env) :
    ((stepsOf test_screenshot).all fun s =>
        match s with
        | .waitVisible _ _ => false
        | .waitEnabled _ _ => false
        | .click _ => false
        | _ => true) = true
    ∧ (e fixes_nav = true →
        (interp e test_screenshot).1 =
          [.doStep fixes_nav true, .doStep fixes_shot (e fixes_shot)]
        ∧ (e fixes_shot = true →
            filesWritten (interp e test_screenshot).1 = [shotPath])) := by
  refine ⟨by decide, fun h1 => ?_⟩
  cases h2 : e fixes_shot <;>
    (simp [fixes_eq, h1, h2]
     try simp [filesWritten, fixes_nav, fixes_shot])

/-- Witness for claim C10 at the all-succeeding oracle. -/
theorem claim_C10_fixes_unconditional_witness :
    (interp envAll test_screenshot).1 =
      [.doStep fixes_nav true, .doStep fixes_shot (envAll fixes_shot)]
    ∧ (envAll fixes_shot = true →
        filesWritten (interp envAll test_screenshot).1 = [shotPath]) :=
  (claim_C10_fixes_unconditional envAll).2 rfl

end Verif
